import Mathlib

/-!
Verification development for the voice-assistant repository.

Each definition below is a shallow embedding of a function of the Python
source (path given in its doc comment).  Machine audio samples (numpy
`int16`) are modelled as `Int`; byte payloads that the source immediately
reinterprets as int16 arrays are modelled directly as sample lists; clock
readings (`datetime.now()`) are measured in seconds and modelled as
rationals where only their algebra matters (timer records) and as whole
seconds (`ℤ`) where concrete instants are compared (the conversation
watchdog).
-/

namespace VoiceAssistant

/-- A chunk of 16-bit PCM samples (numpy `int16` array), modelled as a list
of integers. -/
abbrev Samples := List Int

/-! ## Audio playback buffer — `src/audio/player.py`, class `AudioPlayer` -/

/-- The mutable state of `AudioPlayer` that the playback-buffer operations
touch: `self._samples`, `self._read_index`, `self._playback_started` and
`self._is_playing`. -/
structure PlayerState where
  samples : Samples
  read_index : Nat
  playback_started : Bool
  is_playing : Bool
deriving DecidableEq, Repr

/-- `self._prebuffer_samples = 2400  # 100ms at 24kHz` (player.py line 46). -/
def prebuffer_samples : Nat := 2400

/-- The compaction threshold `48000  # 2 seconds worth` of
`_get_samples` (player.py line 267). -/
def compact_threshold : Nat := 48000

/-- `AudioPlayer.start_playback` (player.py lines 166-177): resets the
buffer and cursor, clears `_playback_started`, sets `_is_playing` and
spawns the playback thread (the thread itself is modelled by explicit
`PlayerOp.get` steps below). -/
def start_playback (st : PlayerState) : PlayerState :=
  { st with samples := [], read_index := 0, playback_started := false, is_playing := true }

/-- The player state right after `start_playback`, which is the state every
conversation session begins playback from. -/
def started_player_state : PlayerState :=
  start_playback { samples := [], read_index := 0, playback_started := false, is_playing := false }

/-- `AudioPlayer.queue_audio` (player.py lines 273-281): a no-op unless
`self._is_playing`; otherwise decodes the byte payload as int16 samples
(`np.frombuffer`) and appends them to `self._samples` under the buffer
lock.  The argument `chunk` is the decoded sample list. -/
def queue_audio (st : PlayerState) (chunk : Samples) : PlayerState :=
  if st.is_playing = true then { st with samples := st.samples ++ chunk } else st

/-- `AudioPlayer._get_samples` (player.py lines 245-271).  Under the buffer
lock: computes `available = len(self._samples) - self._read_index`; while
`_playback_started` is still false it withholds output (`None`) until
`available >= self._prebuffer_samples`, at which point it sets
`_playback_started`; returns `None` when nothing is available; otherwise
slices `self._samples[read_index:end]` with
`end = min(read_index + count, len(self._samples))`, advances the cursor,
and compacts (drops the consumed prefix and zeroes the cursor) once the
cursor passed `48000`.  The Python `end` expression is inlined at each of
its occurrences here. -/
def get_samples (st : PlayerState) (count : Nat) : PlayerState × Option Samples :=
  if st.playback_started = false ∧ st.samples.length - st.read_index < prebuffer_samples then
    (st, none)
  else if st.samples.length - st.read_index = 0 then
    ({ st with playback_started := true }, none)
  else if compact_threshold < min (st.read_index + count) st.samples.length then
    ({ st with playback_started := true,
               samples := st.samples.drop (min (st.read_index + count) st.samples.length),
               read_index := 0 },
     some ((st.samples.drop st.read_index).take
            (min (st.read_index + count) st.samples.length - st.read_index)))
  else
    ({ st with playback_started := true,
               read_index := min (st.read_index + count) st.samples.length },
     some ((st.samples.drop st.read_index).take
            (min (st.read_index + count) st.samples.length - st.read_index)))

/-- One interaction with the playback buffer: either the producer
(`queue_audio`, called from the Gemini audio callback) appends a decoded
chunk, or the consumer (the playback loop calling `_get_samples count`)
reads. -/
inductive PlayerOp where
  | queue (chunk : Samples)
  | get (count : Nat)

/-- Run a sequence of producer/consumer interactions against the buffer,
returning the final state together with the concatenation of all samples
the consumer obtained, in order. -/
def run_player : List PlayerOp → PlayerState → PlayerState × Samples
  | [], st => (st, [])
  | PlayerOp.queue c :: ops, st => run_player ops (queue_audio st c)
  | PlayerOp.get n :: ops, st =>
      ((run_player ops (get_samples st n).1).1,
       ((get_samples st n).2.getD []) ++ (run_player ops (get_samples st n).1).2)

/-- The concatenation, in arrival order, of all chunks a sequence of
operations appends. -/
def queued_samples : List PlayerOp → Samples
  | [] => []
  | PlayerOp.queue c :: ops => c ++ queued_samples ops
  | PlayerOp.get _ :: ops => queued_samples ops

/-! ### Playback-buffer lemmas -/

lemma drop_take_append_drop (l : List α) (i e : Nat) (h1 : i ≤ e) :
    (l.drop i).take (e - i) ++ l.drop e = l.drop i := by
  have h3 : (l.drop i).drop (e - i) = l.drop e := by
    rw [List.drop_drop]
    congr 1
    omega

  calc (l.drop i).take (e - i) ++ l.drop e
      = (l.drop i).take (e - i) ++ (l.drop i).drop (e - i) := by rw [h3]
    _ = l.drop i := List.take_append_drop _ _

lemma queue_audio_started (st : PlayerState) (chunk : Samples) :
    (queue_audio st chunk).playback_started = st.playback_started := by
  unfold queue_audio
  split <;> rfl

lemma queue_audio_spec (st : PlayerState) (chunk : Samples) (hp : st.is_playing = true) :
    queue_audio st chunk = { st with samples := st.samples ++ chunk } := by
  simp [queue_audio, hp]

lemma get_samples_spec (st : PlayerState) (count : Nat) (h : st.read_index ≤ st.samples.length) :
    ((get_samples st count).2.getD []) ++
        ((get_samples st count).1.samples.drop (get_samples st count).1.read_index)
      = st.samples.drop st.read_index
    ∧ (get_samples st count).1.read_index ≤ (get_samples st count).1.samples.length
    ∧ (get_samples st count).1.is_playing = st.is_playing := by
  unfold get_samples
  by_cases h1 : st.playback_started = false ∧
      st.samples.length - st.read_index < prebuffer_samples
  · rw [if_pos h1]
    exact ⟨by simp, h, rfl⟩
  rw [if_neg h1]
  by_cases h2 : st.samples.length - st.read_index = 0
  · rw [if_pos h2]
    exact ⟨by simp, h, rfl⟩
  rw [if_neg h2]
  have hle : st.read_index ≤ min (st.read_index + count) st.samples.length := by omega
  by_cases h3 : compact_threshold < min (st.read_index + count) st.samples.length
  · rw [if_pos h3]
    refine ⟨?_, by simp, rfl⟩
    simpa using drop_take_append_drop st.samples st.read_index _ hle
  · rw [if_neg h3]
    refine ⟨?_, min_le_right _ _, rfl⟩
    simpa using drop_take_append_drop st.samples st.read_index _ hle

lemma get_samples_started_mono (st : PlayerState) (count : Nat)
    (h : st.playback_started = true) :
    (get_samples st count).1.playback_started = true := by
  unfold get_samples
  by_cases h1 : st.playback_started = false ∧
      st.samples.length - st.read_index < prebuffer_samples
  · rw [if_pos h1]
    exact h
  rw [if_neg h1]
  by_cases h2 : st.samples.length - st.read_index = 0
  · rw [if_pos h2]
  rw [if_neg h2]
  by_cases h3 : compact_threshold < min (st.read_index + count) st.samples.length
  · rw [if_pos h3]
  · rw [if_neg h3]

lemma get_samples_not_started (st : PlayerState) (count : Nat)
    (h : (get_samples st count).1.playback_started = false) :
    get_samples st count = (st, none) := by
  unfold get_samples at h ⊢
  by_cases h1 : st.playback_started = false ∧
      st.samples.length - st.read_index < prebuffer_samples
  · rw [if_pos h1]
  rw [if_neg h1] at h ⊢
  by_cases h2 : st.samples.length - st.read_index = 0
  · rw [if_pos h2] at h
    simp at h
  rw [if_neg h2] at h
  by_cases h3 : compact_threshold < min (st.read_index + count) st.samples.length
  · rw [if_pos h3] at h
    simp at h
  · rw [if_neg h3] at h
    simp at h

lemma get_samples_below_threshold (st : PlayerState) (count : Nat)
    (h1 : st.playback_started = false)
    (h2 : st.samples.length - st.read_index < prebuffer_samples) :
    get_samples st count = (st, none) := by
  unfold get_samples
  rw [if_pos ⟨h1, h2⟩]

lemma run_player_inv (ops : List PlayerOp) : ∀ st : PlayerState,
    st.read_index ≤ st.samples.length → st.is_playing = true →
    (run_player ops st).1.read_index ≤ (run_player ops st).1.samples.length
    ∧ (run_player ops st).1.is_playing = true
    ∧ (run_player ops st).2 ++
        ((run_player ops st).1.samples.drop (run_player ops st).1.read_index)
      = st.samples.drop st.read_index ++ queued_samples ops := by
  induction ops with
  | nil => intro st h hp; simpa [run_player, queued_samples] using ⟨h, hp⟩
  | cons op ops ih =>
    intro st h hp
    cases op with
    | queue c =>
      have hq := queue_audio_spec st c hp
      have h' : (queue_audio st c).read_index ≤ (queue_audio st c).samples.length := by
        rw [hq]
        show st.read_index ≤ (st.samples ++ c).length
        simp only [List.length_append]
        omega
      have hp' : (queue_audio st c).is_playing = true := by
        rw [hq]
        exact hp
      obtain ⟨i1, i2, i3⟩ := ih (queue_audio st c) h' hp'
      refine ⟨i1, i2, ?_⟩
      simp only [run_player, queued_samples]
      rw [i3, hq]
      simp [List.drop_append_of_le_length h]
    | get n =>
      obtain ⟨g1, g2, g3⟩ := get_samples_spec st n h
      obtain ⟨i1, i2, i3⟩ := ih (get_samples st n).1 g2 (g3.trans hp)
      refine ⟨i1, i2, ?_⟩
      simp only [run_player, queued_samples]
      rw [List.append_assoc, i3, ← List.append_assoc, g1]

lemma run_player_started_mono (ops : List PlayerOp) : ∀ st : PlayerState,
    st.playback_started = true → (run_player ops st).1.playback_started = true := by
  induction ops with
  | nil => intro st h; simpa [run_player] using h
  | cons op ops ih =>
    intro st h
    cases op with
    | queue c =>
      simp only [run_player]
      exact ih _ ((queue_audio_started st c).trans h)
    | get n =>
      simp only [run_player]
      exact ih _ (get_samples_started_mono st n h)

lemma run_player_silent_not_started (ops : List PlayerOp) : ∀ st : PlayerState,
    (run_player ops st).1.playback_started = false → (run_player ops st).2 = [] := by
  induction ops with
  | nil => intro st _; rfl
  | cons op ops ih =>
    intro st h
    cases op with
    | queue c =>
      simp only [run_player] at h ⊢
      exact ih _ h
    | get n =>
      simp only [run_player] at h ⊢
      have hst1 : (get_samples st n).1.playback_started = false := by
        cases hb : (get_samples st n).1.playback_started with
        | false => rfl
        | true => rw [run_player_started_mono ops _ hb] at h; exact absurd h (by simp)
      have hg := get_samples_not_started st n hst1
      rw [hg]
      simpa using ih _ (by rw [hg] at h; exact h)

/-- Claim C2: from the state `start_playback` establishes, the consumer
`_get_samples` emits no samples while the appended-minus-consumed count
(`len(self._samples) - self._read_index`) is below the 2400-sample
pre-buffer threshold: (1) below the threshold, an un-started buffer
returns no data and is left unchanged; (2) any interaction sequence whose
final state still has `_playback_started = False` emitted nothing at all;
(3) and (4) once `_playback_started` is set it is never cleared by the
consumer or the producer, so the pre-buffer check is never re-armed until
`start_playback` runs again. -/
theorem prebuffer_gate :
    (∀ (st : PlayerState) (count : Nat), st.playback_started = false →
        st.samples.length - st.read_index < prebuffer_samples →
        get_samples st count = (st, none))
    ∧ (∀ ops : List PlayerOp, (run_player ops started_player_state).1.playback_started = false →
        (run_player ops started_player_state).2 = [])
    ∧ (∀ (st : PlayerState) (count : Nat), st.playback_started = true →
        (get_samples st count).1.playback_started = true)
    ∧ (∀ (st : PlayerState) (chunk : Samples),
        (queue_audio st chunk).playback_started = st.playback_started) :=
  ⟨get_samples_below_threshold,
   fun ops => run_player_silent_not_started ops started_player_state,
   get_samples_started_mono,
   queue_audio_started⟩

/-- Witness for C2: concrete runs. A 10-sample buffer (below the
2400-sample threshold) yields no data, and a session that only ever queued
two samples emits nothing. -/
theorem prebuffer_gate_witness :
    get_samples ⟨[1, 2, 3], 0, false, true⟩ 2 = (⟨[1, 2, 3], 0, false, true⟩, none)
    ∧ (run_player [PlayerOp.queue [5, 6], PlayerOp.get 1200] started_player_state).2 = [] :=
  ⟨prebuffer_gate.1 ⟨[1, 2, 3], 0, false, true⟩ 2 rfl (by decide),
   prebuffer_gate.2.1 [PlayerOp.queue [5, 6], PlayerOp.get 1200] (by decide)⟩

/-- Claim C4: first-in-first-out playback. For every interleaving of
producer appends (`queue_audio`) and consumer reads (`_get_samples`)
starting from the state `start_playback` establishes, the concatenation of
all chunks the consumer obtained is a prefix of the concatenation of all
appended samples in append order — no reordering, loss or duplication —
and this holds across the periodic compaction step inside `_get_samples`
that drops the consumed prefix and resets the read cursor. -/
theorem playback_fifo (ops : List PlayerOp) :
    List.IsPrefix (run_player ops started_player_state).2 (queued_samples ops) := by
  obtain ⟨-, -, h⟩ := run_player_inv ops started_player_state (by simp [started_player_state, start_playback]) rfl
  exact ⟨_, by simpa [started_player_state, start_playback] using h⟩

/-- Claim C6: `queue_audio` while playback is not active is a no-op — the
whole player state (sample buffer contents and hence its length, and the
read cursor) is unchanged for every payload. -/
theorem queue_audio_stopped_noop (st : PlayerState) (chunk : Samples)
    (h : st.is_playing = false) :
    queue_audio st chunk = st := by
  simp [queue_audio, h]

/-- Witness for C6: queueing two samples into a stopped player changes
nothing. -/
theorem queue_audio_stopped_noop_witness :
    queue_audio ⟨[7, 8], 1, true, false⟩ [9, 10] = ⟨[7, 8], 1, true, false⟩ :=
  queue_audio_stopped_noop ⟨[7, 8], 1, true, false⟩ [9, 10] rfl

/-! ## Audio capture — `src/audio/handler.py`, class `AudioHandler` -/

/-- The capture state the streaming path touches: the bounded
`self._audio_queue` (an `asyncio.Queue` holding encoded audio chunks,
modelled as a list with the front as the queue head; `has_queue = false`
models `self._audio_queue = None`), the `self._queue_full_count` drop
counter, `self._is_recording` and `self._is_muted`. -/
structure CaptureState where
  queue : List Samples
  queue_full_count : Nat
  is_recording : Bool
  has_queue : Bool
  is_muted : Bool
deriving DecidableEq, Repr

/-- `asyncio.Queue(maxsize=500)` created by `start_streaming`
(handler.py line 133). -/
def queue_maxsize : Nat := 500

/-- The handler state as constructed by `AudioHandler.__init__`
(handler.py lines 30-48): no queue yet, not recording, not muted. -/
def initial_capture_state : CaptureState :=
  { queue := [], queue_full_count := 0, is_recording := false, has_queue := false,
    is_muted := false }

/-- `AudioHandler.start_streaming` (handler.py lines 119-137), restricted
to the queue-related state: creates the fresh bounded queue, sets
`_is_recording` and zeroes `_queue_full_count` (sample-rate probing and
the device stream are outside this model). -/
def start_streaming (st : CaptureState) : CaptureState :=
  { st with queue := [], queue_full_count := 0, is_recording := true, has_queue := true }

/-- The capture state every conversation's streaming starts from. -/
def capture_start_state : CaptureState := start_streaming initial_capture_state

/-- The sounddevice `audio_callback` (handler.py lines 139-162), restricted
to queue effects: when recording with a live queue and not muted, it
resamples the frame if needed (content-only, modelled as the identity on
the chunk) and attempts `put_nowait`; `asyncio.QueueFull` — raised exactly
when the queue already holds `maxsize` items — is caught and counted in
`self._queue_full_count`, dropping the newest frame.  The function is
total: the callback neither blocks nor propagates an exception. -/
def audio_callback (st : CaptureState) (frame : Samples) : CaptureState :=
  if st.is_recording = true ∧ st.has_queue = true ∧ st.is_muted = false then
    if st.queue.length < queue_maxsize then
      { st with queue := st.queue ++ [frame] }
    else
      { st with queue_full_count := st.queue_full_count + 1 }
  else st

/-- The consumer side (`get_audio_stream`, handler.py lines 241-260): one
`await self._audio_queue.get()` attempt, yielding the head chunk when the
queue is non-empty (a timeout on an empty queue yields nothing). -/
def dequeue_chunk (st : CaptureState) : CaptureState × Option Samples :=
  match st.queue with
  | [] => (st, none)
  | c :: rest => ({ st with queue := rest }, some c)

/-- One interaction with the capture queue: a device callback delivering a
frame, or the streaming consumer taking a chunk. -/
inductive CaptureOp where
  | callback (frame : Samples)
  | dequeue

/-- Run a sequence of capture interactions. -/
def run_capture : List CaptureOp → CaptureState → CaptureState
  | [], st => st
  | CaptureOp.callback f :: ops, st => run_capture ops (audio_callback st f)
  | CaptureOp.dequeue :: ops, st => run_capture ops (dequeue_chunk st).1

/-! ### Capture-queue lemmas -/

lemma audio_callback_len (st : CaptureState) (frame : Samples)
    (h : st.queue.length ≤ queue_maxsize) :
    (audio_callback st frame).queue.length ≤ queue_maxsize := by
  unfold audio_callback
  by_cases h1 : st.is_recording = true ∧ st.has_queue = true ∧ st.is_muted = false
  · rw [if_pos h1]
    by_cases h2 : st.queue.length < queue_maxsize
    · rw [if_pos h2]
      show (st.queue ++ [frame]).length ≤ queue_maxsize
      simp only [List.length_append, List.length_singleton]
      omega
    · rw [if_neg h2]
      exact h
  · rw [if_neg h1]
    exact h

lemma audio_callback_drops_mono (st : CaptureState) (frame : Samples) :
    st.queue_full_count ≤ (audio_callback st frame).queue_full_count := by
  unfold audio_callback
  by_cases h1 : st.is_recording = true ∧ st.has_queue = true ∧ st.is_muted = false
  · rw [if_pos h1]
    by_cases h2 : st.queue.length < queue_maxsize
    · rw [if_pos h2]
    · rw [if_neg h2]
      show st.queue_full_count ≤ st.queue_full_count + 1
      omega
  · rw [if_neg h1]

lemma dequeue_chunk_len (st : CaptureState) (h : st.queue.length ≤ queue_maxsize) :
    (dequeue_chunk st).1.queue.length ≤ queue_maxsize := by
  unfold dequeue_chunk
  match hq : st.queue with
  | [] => exact h
  | c :: rest =>
    show rest.length ≤ queue_maxsize
    rw [hq] at h
    simp only [List.length_cons] at h
    omega

lemma dequeue_chunk_drops (st : CaptureState) :
    (dequeue_chunk st).1.queue_full_count = st.queue_full_count := by
  unfold dequeue_chunk
  match st.queue with
  | [] => rfl
  | c :: rest => rfl

lemma run_capture_len (ops : List CaptureOp) : ∀ st : CaptureState,
    st.queue.length ≤ queue_maxsize → (run_capture ops st).queue.length ≤ queue_maxsize := by
  induction ops with
  | nil => intro st h; exact h
  | cons op ops ih =>
    intro st h
    cases op with
    | callback f => exact ih _ (audio_callback_len st f h)
    | dequeue => exact ih _ (dequeue_chunk_len st h)

lemma run_capture_drops_mono (ops : List CaptureOp) : ∀ st : CaptureState,
    st.queue_full_count ≤ (run_capture ops st).queue_full_count := by
  induction ops with
  | nil => intro st; exact le_refl _
  | cons op ops ih =>
    intro st
    cases op with
    | callback f => exact (audio_callback_drops_mono st f).trans (ih _)
    | dequeue => exact (dequeue_chunk_drops st).symm.le.trans (ih _)

/-- Claim C5: the capture queue `start_streaming` creates has capacity 500
and never exceeds it under any interleaving of callbacks and consumer
reads; the drop counter is monotonically non-decreasing over the stream's
lifetime; and an enqueue attempt on a full queue leaves the queue
untouched (the newest frame is dropped) and increments the drop counter by
exactly one — the callback is a total function, so it neither blocks nor
raises. -/
theorem capture_queue_bounded :
    (∀ ops : List CaptureOp, (run_capture ops capture_start_state).queue.length ≤ queue_maxsize)
    ∧ (∀ (ops : List CaptureOp) (st : CaptureState),
        st.queue_full_count ≤ (run_capture ops st).queue_full_count)
    ∧ (∀ (st : CaptureState) (frame : Samples),
        st.is_recording = true → st.has_queue = true → st.is_muted = false →
        queue_maxsize ≤ st.queue.length →
        audio_callback st frame = { st with queue_full_count := st.queue_full_count + 1 }) := by
  refine ⟨fun ops => run_capture_len ops capture_start_state (by simp [capture_start_state, start_streaming, initial_capture_state]),
    fun ops st => run_capture_drops_mono ops st,
    fun st frame h1 h2 h3 h4 => ?_⟩
  unfold audio_callback
  rw [if_pos ⟨h1, h2, h3⟩, if_neg (by omega)]

/-- Witness for C5: a full 500-chunk queue drops the incoming frame and
bumps the counter from 7 to 8; a short concrete run respects the bound. -/
theorem capture_queue_bounded_witness :
    audio_callback ⟨List.replicate 500 [0], 7, true, true, false⟩ [1]
      = ⟨List.replicate 500 [0], 8, true, true, false⟩
    ∧ (run_capture [CaptureOp.callback [1], CaptureOp.dequeue] capture_start_state).queue.length
        ≤ queue_maxsize :=
  ⟨capture_queue_bounded.2.2 ⟨List.replicate 500 [0], 7, true, true, false⟩ [1]
      rfl rfl rfl (by rw [List.length_replicate]; try exact Nat.le_refl 500),
   capture_queue_bounded.1 [CaptureOp.callback [1], CaptureOp.dequeue]⟩

/-! ## Wakeword detection — `src/wakeword/detector.py`, class `WakewordDetector` -/

/-- The Porcupine engine handle (`self._porcupine`): its authoritative
`frame_length` and its `process` call on an int16 frame, which returns a
keyword index (`-1` when no keyword completed) or raises. -/
structure PorcupineEngine where
  frame_length : Nat
  process : Samples → Except String Int

/-- `WakewordDetector.process_frame` (detector.py lines 72-101).  With no
engine (`self._porcupine is None`) it returns false; with a frame whose
length differs from `self._porcupine.frame_length` it logs and returns
false without touching the engine; otherwise it calls the engine and
returns whether `keyword_index >= 0` (the `on_wakeword` callback fires on
detection and is not part of this state).  An `Except.error` result models
an exception propagating out of `process_frame`. -/
def process_frame : Option PorcupineEngine → Samples → Except String Bool
  | none, _ => Except.ok false
  | some eng, audio_frame =>
    if audio_frame.length ≠ eng.frame_length then
      Except.ok false
    else
      match eng.process audio_frame with
      | Except.error e => Except.error e
      | Except.ok keyword_index => Except.ok (decide (0 ≤ keyword_index))

/-- Claim C3: for every initialized detector (engine present) and every
frame whose length differs from the engine's `frame_length`,
`process_frame` returns false and raises no exception.  The statement is
universal in the engine — in particular in its `process` function — so the
result cannot depend on the engine being invoked, padded input, or
truncated input. -/
theorem process_frame_length_mismatch (eng : PorcupineEngine) (audio_frame : Samples)
    (h : audio_frame.length ≠ eng.frame_length) :
    process_frame (some eng) audio_frame = Except.ok false := by
  simp only [process_frame]
  rw [if_pos h]

/-- Witness for C3: a 3-sample frame against a 512-sample engine whose
`process` would raise still yields `ok false`. -/
theorem process_frame_length_mismatch_witness :
    process_frame (some ⟨512, fun _ => Except.error "engine reached"⟩) [1, 2, 3]
      = Except.ok false :=
  process_frame_length_mismatch ⟨512, fun _ => Except.error "engine reached"⟩ [1, 2, 3]
    (by decide)

/-! ## Gemini Live client tool dispatch — `src/gemini/client.py`,
class `GeminiLiveClient` -/

/-- The Python values flowing through tool dispatch, as the
`isinstance(result, str)` / `isinstance(result, dict)` / `else` triage of
`_send_tool_response` distinguishes them: a string, a JSON-object-like
dict, or any other value carried together with its `str(v)` rendering. -/
inductive PyVal where
  | str (s : String)
  | dict (fields : List (String × PyVal))
  | other (str_of : String)

/-- The wrapping step of `GeminiLiveClient._send_tool_response`
(client.py lines 290-299): Gemini expects a Struct (JSON object), so a
string result is wrapped as a singleton object under key `result`, a dict
passes through unchanged, and any other value is wrapped as the object
holding its `str(v)` rendering. -/
def wrap_tool_result : PyVal → PyVal
  | PyVal.str s => PyVal.dict [("result", PyVal.str s)]
  | PyVal.dict d => PyVal.dict d
  | PyVal.other r => PyVal.dict [("result", PyVal.str r)]

/-- Whether a value is a JSON object (a dict), i.e. not a bare scalar. -/
def is_json_object : PyVal → Bool
  | PyVal.dict _ => true
  | _ => false

/-- Whether a value is an object carrying an `error` key. -/
def has_error_field : PyVal → Bool
  | PyVal.dict fields => fields.any (fun p => p.1 == "error")
  | _ => false

/-- A registered tool handler (`self._tool_handlers[name]`): called with
the event's argument map, it either returns a value or raises (the raised
exception's `str(e)` message is the `Except.error` payload). -/
abbrev ToolHandler := List (String × PyVal) → Except String PyVal

/-- One entry of the `functionCalls` list of a `toolCall` event:
`fc.get("name")`, `fc.get("args", {})` and `fc.get("id")` (the Python
`.get` calls can yield `None`, hence the options). -/
structure FunctionCall where
  name : Option String
  args : List (String × PyVal)
  id : Option String

/-- One entry of the `function_responses` list `_send_tool_response`
emits, tagged with the originating call id and name. -/
structure FunctionResponse where
  id : Option String
  name : Option String
  response : PyVal

/-- `str(name)` as the unknown-tool message interpolates it
(`f"Tool '{name}' nicht gefunden"`; Python renders `None` as `None`). -/
def py_str_of_name : Option String → String
  | some n => n
  | none => "None"

/-- The `try`/`except` around the handler invocation in
`_handle_tool_call`: a returned value is wrapped and sent, a raised
exception is caught and sent as the object `error -> str(e)`, in both
cases tagged with the original call id and name via
`_send_tool_response`. -/
def response_of (fc : FunctionCall) : Except String PyVal → FunctionResponse
  | Except.ok result =>
      { id := fc.id, name := fc.name, response := wrap_tool_result result }
  | Except.error e =>
      { id := fc.id, name := fc.name,
        response := wrap_tool_result (PyVal.dict [("error", PyVal.str e)]) }

/-- The per-call body of `GeminiLiveClient._handle_tool_call`
(client.py lines 263-288): a registered handler is invoked (sync and
async handlers are dispatched the same way) and `response_of` sends the
outcome; an unregistered (or missing) name is answered with the object
`error -> "Tool '<name>' nicht gefunden"`.  The tool registry is the map
`handlers` (`self._tool_handlers`). -/
def handle_one_call (handlers : String → Option ToolHandler) (fc : FunctionCall) :
    FunctionResponse :=
  match fc.name.bind handlers with
  | some handler => response_of fc (handler fc.args)
  | none =>
      { id := fc.id, name := fc.name,
        response := wrap_tool_result (PyVal.dict
          [("error", PyVal.str ("Tool \x27" ++ py_str_of_name fc.name ++ "\x27 nicht gefunden"))]) }

/-- `GeminiLiveClient._handle_tool_call` (client.py lines 259-288): the
`for fc in function_calls` loop sends one response per entry; every
handler failure is caught inside the loop body, so processing always
reaches the next entry and control returns to the receive loop. -/
def handle_tool_call (handlers : String → Option ToolHandler)
    (function_calls : List FunctionCall) : List FunctionResponse :=
  function_calls.map (handle_one_call handlers)

/-! ### Tool-dispatch lemmas -/

lemma response_of_id (fc : FunctionCall) (out : Except String PyVal) :
    (response_of fc out).id = fc.id := by
  cases out with
  | ok result => rfl
  | error e => rfl

lemma handle_one_call_id (handlers : String → Option ToolHandler) (fc : FunctionCall) :
    (handle_one_call handlers fc).id = fc.id := by
  unfold handle_one_call
  cases hb : fc.name.bind handlers with
  | none => rfl
  | some handler => exact response_of_id fc (handler fc.args)

/-- Claim C1: for every tool-call event, exactly one response per listed
function call is produced, each tagged with the originating call id; a
registered handler's successful value is sent (wrapped); a raising handler
or an unregistered name yields a response whose payload carries an `error`
field; and `handle_tool_call` is a total map over the calls, so the loop —
and with it the receive loop — continues past every failure. -/
theorem tool_call_single_response (handlers : String → Option ToolHandler)
    (function_calls : List FunctionCall) :
    (handle_tool_call handlers function_calls).length = function_calls.length
    ∧ handle_tool_call handlers function_calls
        = function_calls.map (handle_one_call handlers)
    ∧ (∀ fc : FunctionCall, (handle_one_call handlers fc).id = fc.id)
    ∧ (∀ fc : FunctionCall, fc.name.bind handlers = none →
        has_error_field (handle_one_call handlers fc).response = true)
    ∧ (∀ (fc : FunctionCall) (handler : ToolHandler) (e : String),
        fc.name.bind handlers = some handler → handler fc.args = Except.error e →
        has_error_field (handle_one_call handlers fc).response = true)
    ∧ (∀ (fc : FunctionCall) (handler : ToolHandler) (r : PyVal),
        fc.name.bind handlers = some handler → handler fc.args = Except.ok r →
        (handle_one_call handlers fc).response = wrap_tool_result r) := by
  refine ⟨by simp [handle_tool_call], rfl, handle_one_call_id handlers, ?_, ?_, ?_⟩
  · intro fc hnone
    unfold handle_one_call
    rw [hnone]
    rfl
  · intro fc handler e hsome herr
    unfold handle_one_call
    rw [hsome]
    show has_error_field (response_of fc (handler fc.args)).response = true
    rw [herr]
    rfl
  · intro fc handler r hsome hok
    unfold handle_one_call
    rw [hsome]
    show (response_of fc (handler fc.args)).response = wrap_tool_result r
    rw [hok]
    rfl

/-- Witness for C1 (Scenario D): with a registry holding a raising handler
`boom` and a normal handler `echo`, the call with id `abc123` whose handler
raises gets exactly one error-tagged response carrying its id, an unknown
tool name gets an error response, and a successful call gets its wrapped
result. -/
theorem tool_call_single_response_witness :
    has_error_field (handle_one_call
        (fun n => if n = "boom" then some (fun _ => Except.error "kaputt") else none)
        ⟨some "boom", [], some "abc123"⟩).response = true
    ∧ (handle_one_call
        (fun n => if n = "boom" then some (fun _ => Except.error "kaputt") else none)
        ⟨some "boom", [], some "abc123"⟩).id = some "abc123"
    ∧ has_error_field (handle_one_call
        (fun n => if n = "boom" then some (fun _ => Except.error "kaputt") else none)
        ⟨some "nope", [], some "id2"⟩).response = true
    ∧ (handle_one_call (fun _ => some (fun _ => Except.ok (PyVal.str "hi")))
        ⟨some "echo", [], some "id3"⟩).response
      = wrap_tool_result (PyVal.str "hi") :=
  ⟨(tool_call_single_response
      (fun n => if n = "boom" then some (fun _ => Except.error "kaputt") else none)
      []).2.2.2.2.1 ⟨some "boom", [], some "abc123"⟩ (fun _ => Except.error "kaputt") "kaputt"
      rfl rfl,
   (tool_call_single_response
      (fun n => if n = "boom" then some (fun _ => Except.error "kaputt") else none)
      []).2.2.1 ⟨some "boom", [], some "abc123"⟩,
   (tool_call_single_response
      (fun n => if n = "boom" then some (fun _ => Except.error "kaputt") else none)
      []).2.2.2.1 ⟨some "nope", [], some "id2"⟩ rfl,
   (tool_call_single_response (fun _ => some (fun _ => Except.ok (PyVal.str "hi")))
      []).2.2.2.2.2 ⟨some "echo", [], some "id3"⟩ (fun _ => Except.ok (PyVal.str "hi"))
      (PyVal.str "hi") rfl rfl⟩

/-- Claim C9: every tool response payload `_send_tool_response` builds is a
JSON object, never a bare scalar: a string `s` becomes `{"result": s}`, a
dict is sent unchanged, and any other value `v` becomes
`{"result": str(v)}`. -/
theorem tool_response_always_object :
    (∀ v : PyVal, is_json_object (wrap_tool_result v) = true)
    ∧ (∀ s : String, wrap_tool_result (PyVal.str s) = PyVal.dict [("result", PyVal.str s)])
    ∧ (∀ d : List (String × PyVal), wrap_tool_result (PyVal.dict d) = PyVal.dict d)
    ∧ (∀ r : String, wrap_tool_result (PyVal.other r) = PyVal.dict [("result", PyVal.str r)]) := by
  refine ⟨fun v => ?_, fun s => rfl, fun d => rfl, fun r => rfl⟩
  cases v with
  | str s => rfl
  | dict d => rfl
  | other r => rfl

/-! ## Timer tool — `src/tools/timer.py`, class `TimerTool` -/

/-- The `Timer` dataclass (timer.py lines 18-27), minus the thread handle.
Durations are the Python ints handed to `set_timer`; `remaining_seconds`
and `start_time` are real-valued (`float` / `datetime`) and modelled as
rationals. -/
structure TimerRec where
  name : String
  duration_seconds : Int
  remaining_seconds : ℚ
  start_time : ℚ
  is_running : Bool
  is_paused : Bool
deriving DecidableEq, Repr

/-- `self._timers`, an insertion-ordered dict keyed by timer name
(`list(self._timers.keys())[0]` is the head's key). -/
abbrev TimerMap := List (String × TimerRec)

/-- `TimerTool.stop_timer` (timer.py lines 233-273), run under
`self._lock`.  Result: the timer map afterwards, the timer records that
were stopped (`is_running` cleared — their background threads observe this
flag), and the returned message.  With no timers it reports that none is
running; a non-empty `name` stops exactly that timer (or reports it
missing, listing the active ones); with an empty `name` and a single
timer, that timer is popped; with an empty `name` and several timers, all
are stopped and the map is cleared. -/
def stop_timer : TimerMap → String → TimerMap × List TimerRec × String
  | [], _ => ([], [], "Es läuft kein Timer.")
  | (n0, t0) :: rest, name =>
    if name ≠ "" then
      match ((n0, t0) :: rest).lookup name with
      | some t =>
          (((n0, t0) :: rest).eraseP (fun p => p.1 == name),
           [{ t with is_running := false }],
           "Timer \x27" ++ name ++ "\x27 gestoppt.")
      | none =>
          ((n0, t0) :: rest, [],
           "Timer \x27" ++ name ++ "\x27 nicht gefunden. Aktive Timer: "
             ++ String.intercalate ", " (((n0, t0) :: rest).map Prod.fst))
    else if rest.isEmpty then
      ([], [{ t0 with is_running := false }], "Timer \x27" ++ n0 ++ "\x27 gestoppt.")
    else
      ([], ((n0, t0) :: rest).map (fun p => { p.2 with is_running := false }),
       "Alle " ++ toString (((n0, t0) :: rest).length) ++ " Timer gestoppt.")

/-- Claim C10: calling `stop_timer` with an empty name always leaves the
timer map empty; with no timers it reports that none is running and
changes nothing; with exactly one timer that timer is stopped
(`is_running := false`) and removed; with several timers every one is
stopped and the map is cleared. -/
theorem stop_timer_empty_name (timers : TimerMap) :
    (stop_timer timers "").1 = []
    ∧ (timers = [] → stop_timer timers "" = ([], [], "Es läuft kein Timer."))
    ∧ (∀ (n : String) (t : TimerRec), timers = [(n, t)] →
        stop_timer timers ""
          = ([], [{ t with is_running := false }], "Timer \x27" ++ n ++ "\x27 gestoppt."))
    ∧ (2 ≤ timers.length →
        (stop_timer timers "").2.1
            = timers.map (fun p => { p.2 with is_running := false })
          ∧ ∀ t ∈ (stop_timer timers "").2.1, t.is_running = false) := by
  match timers with
  | [] => exact ⟨rfl, fun _ => rfl, fun n t h => by simp at h, fun h => by simp at h⟩
  | (n0, t0) :: rest =>
    refine ⟨?_, fun h => by simp at h, ?_, ?_⟩
    · show (stop_timer ((n0, t0) :: rest) "").1 = []
      simp only [stop_timer]
      rw [if_neg (by simp)]
      by_cases hr : rest.isEmpty
      · rw [if_pos hr]
      · rw [if_neg hr]
    · intro n t h
      injection h with h1 h2
      injection h1 with hn ht
      subst hn
      subst ht
      subst h2
      simp only [stop_timer]
      rw [if_neg (by simp)]
      all_goals rfl
    · intro hlen
      have hr : rest.isEmpty = false := by
        cases rest with
        | nil => simp at hlen
        | cons a l => rfl
      constructor
      · show (stop_timer ((n0, t0) :: rest) "").2.1 = _
        simp only [stop_timer]
        rw [if_neg (by simp), if_neg (by simp [hr])]
      · intro t ht
        show t.is_running = false
        revert ht
        simp only [stop_timer]
        rw [if_neg (by simp), if_neg (by simp [hr])]
        intro ht
        simp only [List.mem_map] at ht
        obtain ⟨p, -, hp⟩ := ht
        rw [← hp]

/-- Witness for C10: the empty map reports no timer; a single
five-minute timer named Eggs is popped and stopped; with Eggs and Pasta
both present the map is cleared and both are stopped. -/
theorem stop_timer_empty_name_witness :
    stop_timer [] "" = ([], [], "Es läuft kein Timer.")
    ∧ stop_timer [("Eggs", ⟨"Eggs", 300, 300, 0, true, false⟩)] ""
        = ([], [⟨"Eggs", 300, 300, 0, false, false⟩],
           "Timer \x27Eggs\x27 gestoppt.")
    ∧ (stop_timer [("Eggs", ⟨"Eggs", 300, 300, 0, true, false⟩),
        ("Pasta", ⟨"Pasta", 480, 480, 0, true, false⟩)] "").1 = [] :=
  ⟨(stop_timer_empty_name []).2.1 rfl,
   (stop_timer_empty_name [("Eggs", ⟨"Eggs", 300, 300, 0, true, false⟩)]).2.2.1
      "Eggs" ⟨"Eggs", 300, 300, 0, true, false⟩ rfl,
   (stop_timer_empty_name [("Eggs", ⟨"Eggs", 300, 300, 0, true, false⟩),
      ("Pasta", ⟨"Pasta", 480, 480, 0, true, false⟩)]).1⟩

/-! ## Orchestrator conversation watchdog — `src/assistant.py`,
class `VoiceAssistant` -/

/-- The orchestrator state the timeout watchdog reads and writes:
`self._is_in_conversation`, `self._end_conversation_requested` and
`self._last_activity_time` (a `datetime`, here a whole-second instant;
`None` before any activity). -/
structure AssistantState where
  is_in_conversation : Bool
  end_conversation_requested : Bool
  last_activity_time : Option ℤ
deriving DecidableEq, Repr

/-- `config.assistant.conversation_timeout`, default 30 seconds
(config.py line 66). -/
def conversation_timeout : ℤ := 30

/-- The activity-clock effect of `VoiceAssistant._on_gemini_audio`
(assistant.py lines 300-306): records `datetime.now()` as the last
activity (its other effect, queueing the audio via
`AudioPlayer.queue_audio`, lives in the player model above). -/
def on_gemini_audio_clock (st : AssistantState) (now : ℤ) : AssistantState :=
  { st with last_activity_time := some now }

/-- The activity-clock effect of `VoiceAssistant._on_gemini_text`
(assistant.py lines 308-311). -/
def on_gemini_text_clock (st : AssistantState) (now : ℤ) : AssistantState :=
  { st with last_activity_time := some now }

/-- The activity-clock effect of `VoiceAssistant._on_turn_complete`
(assistant.py lines 313-316). -/
def on_turn_complete_clock (st : AssistantState) (now : ℤ) : AssistantState :=
  { st with last_activity_time := some now }

/-- One iteration of `VoiceAssistant._conversation_timeout_loop`
(assistant.py lines 449-469), performed after each one-second sleep while
the conversation flag is up: an early-end request clears the conversation
(and the request); otherwise, when a last activity is recorded and
strictly more than `conversation_timeout` seconds have elapsed, the
conversation flag is cleared — in either case the loop then breaks and the
orchestrator tears the session down and returns to wakeword listening.
No input beyond the state and the clock reading `now` is consumed. -/
def conversation_timeout_check (st : AssistantState) (now : ℤ) : AssistantState :=
  if st.is_in_conversation = false then st
  else if st.end_conversation_requested = true then
    { st with is_in_conversation := false, end_conversation_requested := false }
  else
    match st.last_activity_time with
    | none => st
    | some t =>
      if conversation_timeout < now - t then { st with is_in_conversation := false } else st

/-- Claim C8: while a conversation is active with last recorded activity
at `t0`, a watchdog iteration at any instant strictly more than
`conversation_timeout` seconds past `t0` clears the in-conversation flag,
with no external input; and each of the audio/text/turn-complete callbacks
is what records the activity instant the watchdog compares against. -/
theorem conversation_timeout_fires :
    (∀ (st : AssistantState) (now t0 : ℤ),
        st.is_in_conversation = true →
        st.last_activity_time = some t0 →
        conversation_timeout < now - t0 →
        (conversation_timeout_check st now).is_in_conversation = false)
    ∧ (∀ (st : AssistantState) (now : ℤ),
        (on_gemini_audio_clock st now).last_activity_time = some now
        ∧ (on_gemini_text_clock st now).last_activity_time = some now
        ∧ (on_turn_complete_clock st now).last_activity_time = some now) := by
  refine ⟨?_, fun st now => ⟨rfl, rfl, rfl⟩⟩
  intro st now t0 h1 h2 h3
  unfold conversation_timeout_check
  rw [if_neg (by simp [h1])]
  by_cases he : st.end_conversation_requested = true
  · rw [if_pos he]
  · rw [if_neg he]
    split
    · rename_i heq
      rw [h2] at heq
      cases heq
    · rename_i t heq
      rw [h2] at heq
      injection heq with heq
      subst heq
      rw [if_pos h3]

/-- Witness for C8 (Scenario C): activity last recorded at second 0,
watchdog iteration at second 31 with the 30-second default timeout clears
the flag. -/
theorem conversation_timeout_fires_witness :
    (conversation_timeout_check ⟨true, false, some 0⟩ 31).is_in_conversation = false :=
  conversation_timeout_fires.1 ⟨true, false, some 0⟩ 31 0 rfl rfl (by decide)

/-! ## Conversation session concurrency — `run_session` and
`VoiceAssistant._conversation_loop` -/

/-- The status of one cooperative task: still running (with the number of
steps left before it completes on its own), completed, or cancelled. -/
inductive TaskStatus where
  | running (fuel : Nat)
  | done
  | cancelled
deriving DecidableEq, Repr

/-- One cooperative step of a task; a task whose fuel is exhausted
completes. -/
def step_task : TaskStatus → TaskStatus
  | TaskStatus.running 0 => TaskStatus.done
  | TaskStatus.running (n + 1) => TaskStatus.running n
  | TaskStatus.done => TaskStatus.done
  | TaskStatus.cancelled => TaskStatus.cancelled

/-- A task that is no longer running (completed or cancelled). -/
def is_settled : TaskStatus → Bool
  | TaskStatus.running _ => false
  | _ => true

/-- `task.cancel()` followed by awaiting the task: a running task ends up
cancelled; a task that had already finished keeps its result. -/
def cancel_task : TaskStatus → TaskStatus
  | TaskStatus.running _ => TaskStatus.cancelled
  | s => s

/-- Modelled from the spec: `run_session()` of the Conversation Session
Client.  `VoiceAssistant._conversation_loop` awaits
`self._gemini_client.run_session()` (assistant.py line 410), but the
SDK-session-based client providing it is not among the sources — the
websocket `GeminiLiveClient` in `src/gemini/client.py` has no
`run_session` (its `receive_responses` is only the receive half).  Spec
§4.4: it "runs concurrent send-loop and receive-loop until either fails,
the session is cancelled, or the connection closes; both loops must be
cancelled together (no orphaned loop survives a partial failure)".  The
two loops run under a cooperative scheduler; `sched` picks which loop
steps next (`true` = send loop); when either loop terminates — covering
failure, cancellation and connection close alike — the other is cancelled
and awaited, and `run_session` returns both final statuses.  `none` means
the schedule ended with the session still in progress (`run_session` has
not returned). -/
def run_session : List Bool → TaskStatus → TaskStatus → Option (TaskStatus × TaskStatus)
  | [], send, recv =>
      if is_settled send = true then some (send, cancel_task recv)
      else if is_settled recv = true then some (cancel_task send, recv)
      else none
  | b :: sched, send, recv =>
      if is_settled send = true then some (send, cancel_task recv)
      else if is_settled recv = true then some (cancel_task send, recv)
      else if b = true then run_session sched (step_task send) recv
      else run_session sched send (step_task recv)

/-- Which of the three conversation tasks the scheduler steps next. -/
inductive ConvTaskId where
  | send_loop
  | session_run
  | timeout_watch
deriving DecidableEq, Repr

/-- The three tasks `_conversation_loop` creates (assistant.py lines
409-411): `_send_audio_loop`, the client's `run_session`, and
`_conversation_timeout_loop`. -/
structure ConvTasks where
  send_task : TaskStatus
  session_task : TaskStatus
  timeout_task : TaskStatus
deriving DecidableEq, Repr

def step_conv : ConvTaskId → ConvTasks → ConvTasks
  | ConvTaskId.send_loop, t => { t with send_task := step_task t.send_task }
  | ConvTaskId.session_run, t => { t with session_task := step_task t.session_task }
  | ConvTaskId.timeout_watch, t => { t with timeout_task := step_task t.timeout_task }

/-- `asyncio.wait(..., return_when=FIRST_COMPLETED)` fires once some task
has finished. -/
def any_completed (t : ConvTasks) : Bool :=
  is_settled t.send_task || is_settled t.session_task || is_settled t.timeout_task

/-- The cleanup of `_conversation_loop` (assistant.py lines 420-426): every
pending task is cancelled and awaited (`task.cancel()` then `await task`
swallowing `CancelledError`). -/
def cancel_pending (t : ConvTasks) : ConvTasks :=
  { send_task := cancel_task t.send_task,
    session_task := cancel_task t.session_task,
    timeout_task := cancel_task t.timeout_task }

/-- `VoiceAssistant._conversation_loop` (assistant.py lines 405-429) under
a cooperative schedule: the three tasks are stepped until the first
completes, then the pending ones are cancelled and awaited; `none` means
the schedule ended before any task completed (the loop is still
waiting). -/
def conversation_loop : List ConvTaskId → ConvTasks → Option ConvTasks
  | [], t => if any_completed t = true then some (cancel_pending t) else none
  | i :: sched, t =>
      if any_completed t = true then some (cancel_pending t)
      else conversation_loop sched (step_conv i t)

/-! ### Session-concurrency lemmas -/

lemma is_settled_cancel_task (s : TaskStatus) : is_settled (cancel_task s) = true := by
  cases s <;> rfl

lemma run_session_settled (sched : List Bool) : ∀ (send recv : TaskStatus)
    (out : TaskStatus × TaskStatus), run_session sched send recv = some out →
    is_settled out.1 = true ∧ is_settled out.2 = true := by
  induction sched with
  | nil =>
    intro send recv out h
    simp only [run_session] at h
    by_cases hs : is_settled send = true
    · rw [if_pos hs] at h
      injection h with h
      subst h
      exact ⟨hs, is_settled_cancel_task recv⟩
    · rw [if_neg hs] at h
      by_cases hr : is_settled recv = true
      · rw [if_pos hr] at h
        injection h with h
        subst h
        exact ⟨is_settled_cancel_task send, hr⟩
      · rw [if_neg hr] at h
        exact absurd h (by simp)
  | cons b sched ih =>
    intro send recv out h
    simp only [run_session] at h
    by_cases hs : is_settled send = true
    · rw [if_pos hs] at h
      injection h with h
      subst h
      exact ⟨hs, is_settled_cancel_task recv⟩
    · rw [if_neg hs] at h
      by_cases hr : is_settled recv = true
      · rw [if_pos hr] at h
        injection h with h
        subst h
        exact ⟨is_settled_cancel_task send, hr⟩
      · rw [if_neg hr] at h
        by_cases hb : b = true
        · rw [if_pos hb] at h
          exact ih _ _ _ h
        · rw [if_neg hb] at h
          exact ih _ _ _ h

lemma conversation_loop_settled (sched : List ConvTaskId) : ∀ (t out : ConvTasks),
    conversation_loop sched t = some out →
    is_settled out.send_task = true ∧ is_settled out.session_task = true
      ∧ is_settled out.timeout_task = true := by
  induction sched with
  | nil =>
    intro t out h
    simp only [conversation_loop] at h
    by_cases ha : any_completed t = true
    · rw [if_pos ha] at h
      injection h with h
      subst h
      exact ⟨is_settled_cancel_task _, is_settled_cancel_task _, is_settled_cancel_task _⟩
    · rw [if_neg ha] at h
      exact absurd h (by simp)
  | cons i sched ih =>
    intro t out h
    simp only [conversation_loop] at h
    by_cases ha : any_completed t = true
    · rw [if_pos ha] at h
      injection h with h
      subst h
      exact ⟨is_settled_cancel_task _, is_settled_cancel_task _, is_settled_cancel_task _⟩
    · rw [if_neg ha] at h
      exact ih _ _ h

/-- Claim C7: whenever the spec-modelled `run_session` returns — under any
schedule, loop fuels and termination cause — both the send loop and the
receive loop are settled (completed or cancelled): no orphaned loop
survives a partial failure.  Likewise, whenever the orchestrator's
`_conversation_loop` finishes waiting, all three of its concurrent tasks —
audio send, `run_session`, timeout watchdog — are settled, the pending
ones having been cancelled together and awaited. -/
theorem session_no_orphaned_loop :
    (∀ (sched : List Bool) (send recv : TaskStatus) (out : TaskStatus × TaskStatus),
        run_session sched send recv = some out →
        is_settled out.1 = true ∧ is_settled out.2 = true)
    ∧ (∀ (sched : List ConvTaskId) (t out : ConvTasks),
        conversation_loop sched t = some out →
        is_settled out.send_task = true ∧ is_settled out.session_task = true
          ∧ is_settled out.timeout_task = true) :=
  ⟨run_session_settled, conversation_loop_settled⟩

/-- Witness for C7: a send loop that completes on its first step forces the
still-running receive loop to be cancelled with it; a conversation whose
send task completes first ends with the other two tasks cancelled. -/
theorem session_no_orphaned_loop_witness :
    (is_settled TaskStatus.done = true ∧ is_settled TaskStatus.cancelled = true)
    ∧ (is_settled TaskStatus.done = true ∧ is_settled TaskStatus.cancelled = true
        ∧ is_settled TaskStatus.cancelled = true) :=
  ⟨session_no_orphaned_loop.1 [true] (TaskStatus.running 0) (TaskStatus.running 5)
      (TaskStatus.done, TaskStatus.cancelled) rfl,
   session_no_orphaned_loop.2 [ConvTaskId.send_loop]
      ⟨TaskStatus.running 0, TaskStatus.running 3, TaskStatus.running 4⟩
      ⟨TaskStatus.done, TaskStatus.cancelled, TaskStatus.cancelled⟩ rfl⟩

end VoiceAssistant
